import Mathlib

/-!
Verification of the mission-sequencing and control core of `src/main.py`
(EV3 robot: align on marker, follow the line, fire the catapult, return).

The embedding is shallow: the module-level configuration constants become
Lean constants, the pure control computations become Lean functions on ℚ,
the mission phases become an inductive type with a per-tick step function
derived from the polling-loop guards of the `async` routines, and the
catapult becomes a state record together with the trace of motor commands
it issues.  Python floats are modelled by ℚ (every literal appearing in the
relevant code, 0.2, 0.5, 0.7, -0.2, is exactly representable, and the
claims under scrutiny are algebraic identities preserved by this reading).
-/

namespace Asyqatu

/-! ## Module-level configuration constants (src/main.py lines 30-52, 85-96) -/

def BLACK : ℚ := 10

def WHITE : ℚ := 90

/-- `BW_THRESHOLD = (BLACK + WHITE) / 2` (line 52). -/
def BW_THRESHOLD : ℚ := (BLACK + WHITE) / 2

/-- `PROPORTIONAL_GAIN = 0.5` (line 46). -/
def PROPORTIONAL_GAIN : ℚ := 1 / 2

/-- `MAX_SPEED = 100` (line 85). -/
def MAX_SPEED : ℚ := 100

/-- `BACKWARDS_FACTOR = 0.7`, an attribute of `class Player` (line 206);
note it is a class-body binding, not a module-level one. -/
def BACKWARDS_FACTOR : ℚ := 7 / 10

/-- `ANGLES = {1: -10, 2: -3, 3: 0, 4: 3}` (lines 87-92), a dict:
lookup of a missing key has no value. -/
def ANGLES : ℤ → Option ℤ := fun k =>
  if k = 1 then some (-10)
  else if k = 2 then some (-3)
  else if k = 3 then some 0
  else if k = 4 then some 3
  else none

/-! ## Colors

The color classes the program compares against (`Color.GREEN`, `Color.RED`
in the guards; §3 of the spec enumerates {GREEN, RED, WHITE, BLACK, OTHER}). -/

inductive PyColor
  | GREEN
  | RED
  | WHITE
  | BLACK
  | OTHER
deriving DecidableEq, Repr

/-! ## Line follower (`Player.update_speed_turn_rate`, lines 264-267)

```
deviation = self.right_color_sensor.reflection() - BW_THRESHOLD
k = -0.2 if backwards else 1
self.turn_rate = PROPORTIONAL_GAIN * deviation * k
```
-/

/-- The turn rate written by `Player.update_speed_turn_rate` as a function of
the right sensor's reflection and the `backwards` flag (`-0.2` is `-(1/5)`). -/
def update_speed_turn_rate (reflection : ℚ) (backwards : Bool) : ℚ :=
  let deviation := reflection - BW_THRESHOLD
  let k : ℚ := if backwards then -(1/5) else 1
  PROPORTIONAL_GAIN * deviation * k

/-- Specification-side definition (§4.2 of the spec, stated in its own words,
for comparison with `update_speed_turn_rate` from the source):
`compute_turn_rate(reflectance, threshold, gain, direction_sign) =
 gain * (reflectance - threshold) * direction_sign`. -/
def compute_turn_rate (reflectance threshold gain direction_sign : ℚ) : ℚ :=
  gain * (reflectance - threshold) * direction_sign

/-! ## Mission phases

`Player.run` awaits `init_routine`, `start_routine`,
`walk_along_line_forward`, `throw_routine`, `walk_along_line_backwards`
in order (lines 308-313).  Each routine before the throw is a polling loop
on the left color sensor; one evaluation of a loop guard is one step. -/

inductive MissionPhase
  | INIT
  | ALIGN_ON_START
  | FORWARD_FOLLOW
  | THROW
  | BACKWARD_FOLLOW
  | DONE
deriving DecidableEq, Repr

/-- One poll of the left color sensor in the current phase.

* `INIT`: `init_routine` (lines 235-239) loops `while color() != GREEN`,
  so it keeps waiting on a non-GREEN reading and finishes — advancing to
  the start routine — exactly on a GREEN reading.
* `ALIGN_ON_START`: `start_routine` (lines 257-262) loops
  `while color() == GREEN`, driving forward; it exits on a non-GREEN reading.
* `FORWARD_FOLLOW`: `walk_along_line_forward` (lines 269-275) loops
  `while color() != RED`.
* `THROW`: `throw_routine` has no sensor guard; it runs to completion and
  `run` then awaits the backwards walk.
* `BACKWARD_FOLLOW`: `walk_along_line_backwards` (lines 287-298) loops
  `while color() != GREEN`. -/
def missionStep : MissionPhase → PyColor → MissionPhase
  | .INIT, c => if c = .GREEN then .ALIGN_ON_START else .INIT
  | .ALIGN_ON_START, c => if c = .GREEN then .ALIGN_ON_START else .FORWARD_FOLLOW
  | .FORWARD_FOLLOW, c => if c = .RED then .THROW else .FORWARD_FOLLOW
  | .THROW, _ => .BACKWARD_FOLLOW
  | .BACKWARD_FOLLOW, c => if c = .GREEN then .DONE else .BACKWARD_FOLLOW
  | .DONE, _ => .DONE

/-! ## Catapult (`class Catapult`, lines 55-78)

The release motor's only operations are two `run_until_stalled` calls:

```
def lock(self):    self.release_motor.run_until_stalled(-500, then=Stop.HOLD)
def release(self): self.release_motor.run_until_stalled(500)
def shoot(self):   self.release(); self.lock()
```

Pybricks' `run_until_stalled(speed, then=Stop.COAST, duty_limit=None)`
defaults `then` to COAST and `duty_limit` to `None`; we record every call
with exactly the arguments the source passes. -/

inductive StopMode
  | COAST
  | HOLD
deriving DecidableEq, Repr

/-- One `run_until_stalled` call: the commanded speed, the `then` stop mode,
and the `duty_limit` argument (`none` when the call does not pass one). -/
structure StallCmd where
  speed : ℤ
  thenMode : StopMode
  dutyLimit : Option ℤ
deriving DecidableEq, Repr

inductive CatapultPhase
  | LOCKED
  | RELEASED
deriving DecidableEq, Repr

/-- Catapult state: the mechanical phase the last stall-homing call leaves
the mechanism in, plus the trace of motor commands issued so far. -/
structure Catapult where
  phase : CatapultPhase
  trace : List StallCmd
deriving DecidableEq, Repr

/-- `Catapult.lock` (lines 63-64): `run_until_stalled(-500, then=Stop.HOLD)`,
no `duty_limit` argument. -/
def Catapult.lock (c : Catapult) : Catapult :=
  { phase := .LOCKED, trace := c.trace ++ [⟨-500, .HOLD, none⟩] }

/-- `Catapult.release` (lines 66-67): `run_until_stalled(500)` with the
pybricks defaults `then=Stop.COAST`, `duty_limit=None`. -/
def Catapult.release (c : Catapult) : Catapult :=
  { phase := .RELEASED, trace := c.trace ++ [⟨500, .COAST, none⟩] }

/-- `Catapult.shoot` (lines 73-78): `self.release()` then `self.lock()`
(the tension-motor lines in the body are commented out). -/
def Catapult.shoot (c : Catapult) : Catapult :=
  (c.release).lock

/-- `Catapult.startup` (lines 60-61): `self.lock()`. -/
def Catapult.startup (c : Catapult) : Catapult :=
  c.lock

/-- `Catapult.__init__(self, tension_port, release_port)` (lines 57-58)
constructs only `Motor(release_port, positive_direction=COUNTERCLOCKWISE)`;
the `tension_port` parameter is never used.  The ports are opaque
identifiers, modelled by ℕ. -/
structure CatapultCfg where
  release_motor_port : ℕ
  positive_dir_ccw : Bool
deriving DecidableEq, Repr

def Catapult.make (tension_port release_port : ℕ) : CatapultCfg :=
  { release_motor_port := release_port, positive_dir_ccw := true }

/-! ## The tension setter (`Catapult.set_tension`, lines 69-71)

In this variant the method is commented out:

```
# def set_tension(self, value):
#     if self.min_tension <= value <= self.max_tension:
#         self.tension = value
```

We embed the commented-out definition as written: the stored tension
starts absent (`__init__` never assigns `self.tension`), an in-range value
is stored, anything else is silently ignored.  `min_tension`/`max_tension`
are likewise never assigned in the source; they are carried as fields
(the settings UI bounds the Tension setting to [40, 100]). -/

structure TensionState where
  min_tension : ℤ
  max_tension : ℤ
  tension : Option ℤ
deriving DecidableEq, Repr

/-- `set_tension(value)` from the commented-out source: store `value` when
`min_tension <= value <= max_tension`, otherwise change nothing; never an
error. -/
def set_tension (s : TensionState) (value : ℤ) : TensionState :=
  if s.min_tension ≤ value ∧ value ≤ s.max_tension then
    { s with tension := some value }
  else
    s

/-! ## Player control state

`Player.__init__` (lines 219-227) sets `drive_speed = 0`, `turn_rate = 0`,
`drive_speed_factor = 1`, `move_start = time.time()`; these are the fields
the control routines read and write. -/

structure PlayerCtl where
  drive_speed : ℚ
  turn_rate : ℚ
  drive_speed_factor : ℚ
  move_start : ℚ
deriving DecidableEq, Repr

/-! ## Drive controller (`Player.manage_drive`, lines 300-306)

```
if self.drive_speed == 0: self.drivebase.stop()
else: self.drivebase.drive(self.drive_speed * self.drive_speed_factor, self.turn_rate)
```
-/

inductive DriveAction
  | stop
  | drive (speed turn_rate : ℚ)
deriving DecidableEq, Repr

/-- One iteration of the `manage_drive` loop: the drivebase call it issues
for the current shared command state. -/
def manage_drive_tick (s : PlayerCtl) : DriveAction :=
  if s.drive_speed = 0 then
    DriveAction.stop
  else
    DriveAction.drive (s.drive_speed * s.drive_speed_factor) s.turn_rate

/-! ## Forward line-following (`Player.walk_along_line_forward`, lines 269-275)

```
while self.left_color_sensor.color() != Color.RED:
    self.update_speed_turn_rate()
    await uasyncio.sleep(0.02)
```

Each iteration reads the left color (the guard) and the right reflection
(inside `update_speed_turn_rate`); we fold the loop over the list of
per-tick (left color, right reflection) sensor readings. -/

/-- The body of one forward-follow iteration: only `turn_rate` is written. -/
def walkForwardTick (s : PlayerCtl) (reflection : ℚ) : PlayerCtl :=
  { s with turn_rate := update_speed_turn_rate reflection false }

/-- The forward-follow loop over a stream of (left color, right reflection)
readings: exit as soon as the left sensor reads RED, otherwise run the body
and continue. -/
def walk_along_line_forward : PlayerCtl → List (PyColor × ℚ) → PlayerCtl
  | s, [] => s
  | s, (c, r) :: rest =>
      if c = PyColor.RED then s
      else walk_along_line_forward (walkForwardTick s r) rest

/-! ## Throw routine (`Player.throw_routine`, lines 277-285)

```
self.stop()
await uasyncio.sleep(0.2)
self.drivebase.turn(ANGLES[self.asyq])
#self.catapult.set_tension(self.tension)
self.catapult.shoot()
self.drivebase.turn(-ANGLES[self.asyq])
```
-/

inductive RobotAct
  | stopDrive
  | settle (seconds : ℚ)
  | turn (angle : ℤ)
  | stall (cmd : StallCmd)
deriving DecidableEq, Repr

/-- The motor commands `Catapult.shoot` issues (from any starting state the
same two stall-homing calls are appended). -/
def shootTrace : List StallCmd :=
  (Catapult.shoot ⟨CatapultPhase.LOCKED, []⟩).trace

/-- The action sequence of `throw_routine` for settings `asyq` and
`tension`: stop, settle 0.2 s, turn by `ANGLES[asyq]`, fire, turn back by
the negation.  A missing `ANGLES` key has no trace (a `KeyError` in
Python).  The `tension` setting is carried because `Player` stores it, but
the routine never reads it (its `set_tension` call is commented out). -/
def throw_routine (asyq tension : ℤ) : Option (List RobotAct) :=
  (ANGLES asyq).map fun a =>
    [RobotAct.stopDrive, RobotAct.settle (1/5), RobotAct.turn a]
      ++ shootTrace.map RobotAct.stall
      ++ [RobotAct.turn (-a)]

/-- Net commanded heading change: the sum of the `turn` angles in a trace. -/
def netTurn : List RobotAct → ℤ
  | [] => 0
  | RobotAct.turn a :: rest => a + netTurn rest
  | _ :: rest => netTurn rest

/-- The `Player` settings the UI edits (lines 224-225, 159-196). -/
structure PlayerSettings where
  tension : ℤ
  asyq : ℤ
deriving DecidableEq, Repr

/-- `throw_routine` as invoked on a `Player`: it reads `self.asyq` (and
would read `self.tension` only through the commented-out call). -/
def playerThrow (p : PlayerSettings) : Option (List RobotAct) :=
  throw_routine p.asyq p.tension

/-! ## `Player.backwards` and Python name resolution (lines 247-251)

```
def backwards(self):
    self.drivebase.reset()
    self.drive_speed = -MAX_SPEED * BACKWARDS_FACTOR
    self.turn_rate = 0
    self.move_start = time.time()
```

`BACKWARDS_FACTOR` is bound only in the body of `class Player` (line 206).
A bare name inside a method body is resolved against the method's locals,
then the module's global namespace, then the builtins — the surrounding
class body is *not* searched (CPython and MicroPython scoping).  We list
the bare names the `Player` methods read and where each is bound; none of
them is a local of `backwards` or a Python builtin. -/

inductive PyName
  | BACKWARDS_FACTOR
  | MAX_SPEED
  | BW_THRESHOLD
  | PROPORTIONAL_GAIN
  | ANGLES
deriving DecidableEq, Repr

/-- Whether the name is bound by a module-level statement of `src/main.py`
(assignment outside any `class`/`def` body).  `MAX_SPEED` (line 85),
`BW_THRESHOLD` (line 52), `PROPORTIONAL_GAIN` (line 46) and `ANGLES`
(line 87) are; `BACKWARDS_FACTOR` is bound only at line 206, inside the
`class Player` body. -/
def boundAtModuleLevel : PyName → Bool
  | .BACKWARDS_FACTOR => false
  | _ => true

/-- Whether the name is bound in the `class Player` body (a class
attribute, reachable from methods only as `self.NAME` or `Player.NAME`). -/
def boundInClassPlayerBody : PyName → Bool
  | .BACKWARDS_FACTOR => true
  | _ => false

/-- Resolution of a bare name read inside a `Player` method body: locals,
module globals, builtins; the class body is skipped.  The listed names are
neither locals of the methods that read them nor builtins, so resolution
succeeds exactly on the module-level bindings. -/
def resolvesInMethodBody (n : PyName) : Bool :=
  boundAtModuleLevel n

inductive PyError
  | nameError (n : PyName)
deriving DecidableEq, Repr

/-- `Player.backwards` as written: the assignment at line 249 reads the bare
name `BACKWARDS_FACTOR`; when that read resolves, the intended updates
follow (`now` is `time.time()`), and when it does not, the method raises
`NameError` at that line. -/
def Player.backwards (now : ℚ) (s : PlayerCtl) : Except PyError PlayerCtl :=
  if resolvesInMethodBody PyName.BACKWARDS_FACTOR then
    Except.ok { s with
      drive_speed := -MAX_SPEED * BACKWARDS_FACTOR
      turn_rate := 0
      move_start := now }
  else
    Except.error (PyError.nameError PyName.BACKWARDS_FACTOR)

/-! ## Helper lemmas -/

/-- The forward-follow loop touches only `turn_rate`: the drive speed, the
speed factor and the phase-start timestamp it was entered with are
unchanged by any number of iterations. -/
theorem walk_forward_preserves (rs : List (PyColor × ℚ)) (s : PlayerCtl) :
    (walk_along_line_forward s rs).drive_speed_factor = s.drive_speed_factor
      ∧ (walk_along_line_forward s rs).drive_speed = s.drive_speed
      ∧ (walk_along_line_forward s rs).move_start = s.move_start := by
  induction rs generalizing s with
  | nil => exact ⟨rfl, rfl, rfl⟩
  | cons hd tl ih =>
      obtain ⟨c, r⟩ := hd
      by_cases hc : c = PyColor.RED
      · simp [walk_along_line_forward, hc]
      · simpa [walk_along_line_forward, hc, walkForwardTick] using ih (walkForwardTick s r)

/-! ## Claims -/

/-- C1 (counterexample): the claim says INIT advances to ALIGN_ON_START
exactly when the left sensor reports a color other than GREEN and stays in
INIT on GREEN.  On the code it is the other way round: a RED reading keeps
the mission in INIT, and a GREEN reading advances it. -/
theorem c1_init_advance_counterexample :
    missionStep MissionPhase.INIT PyColor.RED = MissionPhase.INIT
      ∧ missionStep MissionPhase.INIT PyColor.GREEN = MissionPhase.ALIGN_ON_START := by
  decide

/-- C1 (amended): while the mission is in INIT, it advances to
ALIGN_ON_START exactly when the left color sensor reports GREEN; as long
as the reading differs from GREEN the mission stays in INIT
(`init_routine` loops `while color() != GREEN`). -/
theorem c1_init_advance_amended (c : PyColor) :
    (missionStep MissionPhase.INIT c = MissionPhase.ALIGN_ON_START ↔ c = PyColor.GREEN)
      ∧ (missionStep MissionPhase.INIT c = MissionPhase.INIT ↔ c ≠ PyColor.GREEN) := by
  cases c <;> simp [missionStep]

/-- C2: the spec's line-follower law `compute_turn_rate` gives `g*(r-t)` in
the forward direction and exactly zero at `r = t` for any direction sign,
and the source's `update_speed_turn_rate` is an instance of that law at
threshold `BW_THRESHOLD`, gain `PROPORTIONAL_GAIN`, and direction sign `1`
(forward) or `-0.2` (backward); in particular at reflection `BW_THRESHOLD`
the computed turn rate is zero for either travel direction. -/
theorem c2_compute_turn_rate :
    (∀ r t g : ℚ, compute_turn_rate r t g 1 = g * (r - t))
      ∧ (∀ t g sgn : ℚ, compute_turn_rate t t g sgn = 0)
      ∧ (∀ r : ℚ, update_speed_turn_rate r false
            = compute_turn_rate r BW_THRESHOLD PROPORTIONAL_GAIN 1)
      ∧ (∀ r : ℚ, update_speed_turn_rate r true
            = compute_turn_rate r BW_THRESHOLD PROPORTIONAL_GAIN (-(1/5)))
      ∧ (∀ b : Bool, update_speed_turn_rate BW_THRESHOLD b = 0) := by
  refine ⟨fun r t g => by simp [compute_turn_rate], fun t g sgn => by simp [compute_turn_rate],
    fun r => by simp [update_speed_turn_rate, compute_turn_rate],
    fun r => by simp [update_speed_turn_rate, compute_turn_rate],
    fun b => by cases b <;> simp [update_speed_turn_rate]⟩

/-- C3 (counterexample): the claim says that once phase-elapsed time in
FORWARD_FOLLOW exceeds the decay threshold (for example 10 s) the speed
factor is halved from 1 to 0.5 on the next tick.  Running the loop from
its entry state (speed `MAX_SPEED`, factor 1) for 600 ticks — 12 s at the
0.02 s loop sleep, past any 10 s threshold — leaves the factor at 1, not
0.5: no decay exists in the code. -/
theorem c3_speed_factor_counterexample :
    (600 : ℚ) * (1/50) > 10
      ∧ (walk_along_line_forward ⟨100, 0, 1, 0⟩
          (List.replicate 600 (PyColor.WHITE, (90:ℚ)))).drive_speed_factor = 1
      ∧ (1 : ℚ) ≠ 1/2 := by
  refine ⟨by norm_num, ?_, by norm_num⟩
  rw [(walk_forward_preserves _ _).1]

/-- C3 (amended): during FORWARD_FOLLOW each tick only recomputes
`turn_rate` from the right sensor; `drive_speed_factor` (initialized to 1
and never written again) and `drive_speed` keep their phase-entry values
however much phase time elapses — the speed factor is never decayed. -/
theorem c3_speed_factor_amended (s : PlayerCtl) (rs : List (PyColor × ℚ)) :
    (walk_along_line_forward s rs).drive_speed_factor = s.drive_speed_factor
      ∧ (walk_along_line_forward s rs).drive_speed = s.drive_speed :=
  ⟨(walk_forward_preserves rs s).1, (walk_forward_preserves rs s).2.1⟩

/-- C4 (code bug): entering BACKWARD_FOLLOW calls `Player.backwards`, whose
assignment `self.drive_speed = -MAX_SPEED * BACKWARDS_FACTOR` reads the
bare name `BACKWARDS_FACTOR`.  That name is bound only as a `Player` class
attribute, which Python does not search when resolving a bare name in a
method body, so the call raises `NameError` instead of commanding the
intended reverse speed `-MAX_SPEED * 0.7 = -70`. -/
theorem c4_backwards_name_error :
    (∀ (now : ℚ) (s : PlayerCtl),
        Player.backwards now s = Except.error (PyError.nameError PyName.BACKWARDS_FACTOR))
      ∧ boundInClassPlayerBody PyName.BACKWARDS_FACTOR = true
      ∧ boundAtModuleLevel PyName.BACKWARDS_FACTOR = false
      ∧ -MAX_SPEED * BACKWARDS_FACTOR = -70 := by
  refine ⟨fun now s => rfl, rfl, rfl, by norm_num [MAX_SPEED, BACKWARDS_FACTOR]⟩

/-- C5 (counterexample): the claim says that after `set_tension(v)` the
stored tension always lies in `[min_tension, max_tension]`.  From the
post-construction state (no tension ever stored — `__init__` assigns
none), `set_tension 300` against bounds `[40, 100]` is a silent no-op and
afterwards there is still no stored tension at all, let alone one in
range. -/
theorem c5_set_tension_counterexample :
    set_tension ⟨40, 100, none⟩ 300 = ⟨40, 100, none⟩
      ∧ (set_tension ⟨40, 100, none⟩ 300).tension.isNone = true := by
  decide

/-- C5 (amended, from the commented-out `set_tension` of this variant): an
in-range value is stored exactly, an out-of-range value leaves the state
unchanged (silent drop, not a clamp, and no error), and hence a stored
tension that is already in range stays in range after any call — the range
invariant holds only conditionally, not for every prior state. -/
theorem c5_set_tension_amended (s : TensionState) (v : ℤ) :
    (s.min_tension ≤ v ∧ v ≤ s.max_tension → (set_tension s v).tension = some v)
      ∧ (¬(s.min_tension ≤ v ∧ v ≤ s.max_tension) → set_tension s v = s)
      ∧ (∀ t : ℤ, s.tension = some t → s.min_tension ≤ t ∧ t ≤ s.max_tension →
          ∃ u : ℤ, (set_tension s v).tension = some u
            ∧ s.min_tension ≤ u ∧ u ≤ s.max_tension) := by
  by_cases hc : s.min_tension ≤ v ∧ v ≤ s.max_tension
  · refine ⟨fun _ => by simp [set_tension, hc], fun h => absurd hc h, fun t ht hrange => ?_⟩
    exact ⟨v, by simp [set_tension, hc], hc.1, hc.2⟩
  · refine ⟨fun h => absurd h hc, fun _ => by simp [set_tension, hc], fun t ht hrange => ?_⟩
    exact ⟨t, by simp [set_tension, hc, ht], hrange.1, hrange.2⟩

/-- C5 (witness): with bounds `[40, 100]` and stored tension 50,
`set_tension 60` stores 60; `set_tension 300` is a no-op; and after the
no-op a stored in-range tension still exists. -/
theorem c5_set_tension_witness :
    (set_tension ⟨40, 100, some 50⟩ 60).tension = some 60
      ∧ set_tension ⟨40, 100, some 50⟩ 300 = ⟨40, 100, some 50⟩
      ∧ ∃ u : ℤ, (set_tension ⟨40, 100, some 50⟩ 300).tension = some u
          ∧ (40:ℤ) ≤ u ∧ u ≤ 100 :=
  ⟨(c5_set_tension_amended ⟨40, 100, some 50⟩ 60).1 (by norm_num),
   (c5_set_tension_amended ⟨40, 100, some 50⟩ 300).2.1 (by norm_num),
   (c5_set_tension_amended ⟨40, 100, some 50⟩ 300).2.2 50 rfl (by norm_num)⟩

/-- C6: `shoot` is exactly `release` followed by `lock`, and from either
starting phase (LOCKED or RELEASED) the catapult ends in LOCKED after
`shoot` returns. -/
theorem c6_shoot_locked (c : Catapult) :
    Catapult.shoot c = Catapult.lock (Catapult.release c)
      ∧ (Catapult.shoot c).phase = CatapultPhase.LOCKED :=
  ⟨rfl, rfl⟩

/-- C7: on every drive-control tick, a zero commanded speed produces the
explicit stop call and never any `drive` call (whatever the current turn
rate), and a non-zero commanded speed produces
`drive(speed * speed_factor, turn_rate)`. -/
theorem c7_manage_drive (s : PlayerCtl) :
    (s.drive_speed = 0 →
        manage_drive_tick s = DriveAction.stop
          ∧ ∀ v t : ℚ, manage_drive_tick s ≠ DriveAction.drive v t)
      ∧ (s.drive_speed ≠ 0 →
          manage_drive_tick s
            = DriveAction.drive (s.drive_speed * s.drive_speed_factor) s.turn_rate) := by
  constructor
  · intro h
    refine ⟨by simp [manage_drive_tick, h], fun v t => by simp [manage_drive_tick, h]⟩
  · intro h
    simp [manage_drive_tick, h]

/-- C7 (witness): at commanded speed 0 (turn rate 5) the tick issues the
stop call; at commanded speed 100 with factor 1 it issues `drive 100 5`. -/
theorem c7_manage_drive_witness :
    manage_drive_tick ⟨0, 5, 1, 0⟩ = DriveAction.stop
      ∧ manage_drive_tick ⟨100, 5, 1, 0⟩ = DriveAction.drive 100 5 := by
  refine ⟨((c7_manage_drive ⟨0, 5, 1, 0⟩).1 rfl).1, ?_⟩
  have h := (c7_manage_drive ⟨100, 5, 1, 0⟩).2 (by norm_num)
  simpa using h

/-- C8 (counterexample): the claim says every `run_until_stalled` call the
catapult controller makes passes an explicit bounded duty limit.  The trace
of a `shoot` from the initial state contains a call whose `duty_limit`
argument is `None` (in fact both calls omit it). -/
theorem c8_duty_limit_counterexample :
    ¬ (∀ cmd ∈ (Catapult.shoot ⟨CatapultPhase.LOCKED, []⟩).trace,
        cmd.dutyLimit ≠ none) := by
  decide

/-- C8 (amended): `lock` appends exactly the call
`run_until_stalled(-500, then=HOLD)` and `release` exactly
`run_until_stalled(500, then=COAST)`, and every such newly issued call has
`duty_limit = None` — no bounded duty limit is ever passed. -/
theorem c8_duty_limit_amended (c : Catapult) (cmd : StallCmd) :
    (cmd ∈ (Catapult.lock c).trace ∧ cmd ∉ c.trace →
        cmd.speed = -500 ∧ cmd.thenMode = StopMode.HOLD ∧ cmd.dutyLimit = none)
      ∧ (cmd ∈ (Catapult.release c).trace ∧ cmd ∉ c.trace →
          cmd.speed = 500 ∧ cmd.thenMode = StopMode.COAST ∧ cmd.dutyLimit = none) := by
  constructor
  · rintro ⟨hmem, hnew⟩
    rcases List.mem_append.mp hmem with h | h
    · exact absurd h hnew
    · simp only [List.mem_singleton] at h
      subst h
      exact ⟨rfl, rfl, rfl⟩
  · rintro ⟨hmem, hnew⟩
    rcases List.mem_append.mp hmem with h | h
    · exact absurd h hnew
    · simp only [List.mem_singleton] at h
      subst h
      exact ⟨rfl, rfl, rfl⟩

/-- C8 (witness): the single command `lock` issues from the empty-trace
catapult has speed -500, stop mode HOLD and no duty limit. -/
theorem c8_duty_limit_witness :
    (⟨-500, StopMode.HOLD, none⟩ : StallCmd).speed = -500
      ∧ (⟨-500, StopMode.HOLD, none⟩ : StallCmd).thenMode = StopMode.HOLD
      ∧ (⟨-500, StopMode.HOLD, none⟩ : StallCmd).dutyLimit = none :=
  (c8_duty_limit_amended ⟨CatapultPhase.RELEASED, []⟩ ⟨-500, StopMode.HOLD, none⟩).1
    ⟨by decide, by decide⟩

/-- C9: whenever `ANGLES` has an entry `a` for the configured `asyq`, the
throw phase, after the stop and the 0.2 s settle delay, turns by `a`, fires
(the two stall-homing calls of `shoot`), and turns by exactly `-a`; the net
commanded heading change of the produced trace is zero. -/
theorem c9_throw_symmetry (asyq tension a : ℤ) (h : ANGLES asyq = some a) :
    throw_routine asyq tension
        = some ([RobotAct.stopDrive, RobotAct.settle (1/5), RobotAct.turn a]
            ++ shootTrace.map RobotAct.stall ++ [RobotAct.turn (-a)])
      ∧ netTurn ([RobotAct.stopDrive, RobotAct.settle (1/5), RobotAct.turn a]
            ++ shootTrace.map RobotAct.stall ++ [RobotAct.turn (-a)]) = 0 := by
  constructor
  · simp [throw_routine, h]
  · show netTurn _ = 0
    simp [shootTrace, Catapult.shoot, Catapult.lock, Catapult.release, netTurn]

/-- C9 (witness): at `asyq = 1` (angle -10) and tension 60, the throw trace
is stop, settle, turn -10, the two stall calls, turn 10, with net turn 0. -/
theorem c9_throw_symmetry_witness :
    ANGLES 1 = some (-10)
      ∧ (throw_routine 1 60
            = some ([RobotAct.stopDrive, RobotAct.settle (1/5), RobotAct.turn (-10)]
                ++ shootTrace.map RobotAct.stall ++ [RobotAct.turn (-(-10))])
          ∧ netTurn ([RobotAct.stopDrive, RobotAct.settle (1/5), RobotAct.turn (-10)]
                ++ shootTrace.map RobotAct.stall ++ [RobotAct.turn (-(-10))]) = 0) :=
  ⟨by decide, c9_throw_symmetry 1 60 (-10) (by decide)⟩

/-- C10: the tension setting does not influence firing.  Two player
configurations differing only in `tension` produce identical throw-phase
action traces (the `set_tension` call in `throw_routine` is commented out
and `shoot` never reads a tension), and the `Catapult` constructor ignores
its `tension_port` argument entirely. -/
theorem c10_tension_noninterference :
    (∀ (p : PlayerSettings) (t : ℤ), playerThrow { p with tension := t } = playerThrow p)
      ∧ (∀ tp1 tp2 rp : ℕ, Catapult.make tp1 rp = Catapult.make tp2 rp) :=
  ⟨fun p t => rfl, fun tp1 tp2 rp => rfl⟩

end Asyqatu
